import Mathlib

/-!
# Lost-and-found registry (`src/script.js`)

A shallow embedding of the state and the handlers of `script.js`:
the three collections `users`, `items`, `notifications` and the session
variable `currentUser` become the fields of `State`, and every handler becomes
a function from the state (and the form fields, the clock and the random draw
it reads) to the next state.

Conventions of the embedding.

* Storage, DOM rendering and `alert` have no effect on the four variables and
  are left out; the alert a handler ends with is kept as its outcome.
* Numbers used as ids and timestamps are natural numbers.
* `Date.now()` and `Math.floor(Math.random() * 999)` are inputs of the handlers
  that call them.
* JavaScript strings are `String`, that is, sequences of Unicode code points
  (no lone surrogate); truthiness of a string is non-emptiness. `trim` strips
  the WhiteSpace and LineTerminator of ECMAScript, and `toLowerCase` is the
  locale-insensitive lowercasing of the Unicode Character Database, with its
  two special cases, U+0130 and the final sigma.
-/

namespace LostFound

/-! ## String builtins -/

/-- The code points the method `trim` strips: the WhiteSpace of ECMAScript
(TAB, VT, FF, ZWNBSP and the space separators, category Zs) and its
LineTerminator (LF, CR, LS, PS). -/
def isWhiteSpaceOrLineTerminator (c : Char) : Bool :=
  c.toNat == 0x9 || c.toNat == 0xA || c.toNat == 0xB || c.toNat == 0xC || c.toNat == 0xD ||
    c.toNat == 0x20 || c.toNat == 0xA0 || c.toNat == 0x1680 ||
    (0x2000 ≤ c.toNat && c.toNat ≤ 0x200A) || c.toNat == 0x2028 || c.toNat == 0x2029 ||
    c.toNat == 0x202F || c.toNat == 0x205F || c.toNat == 0x3000 || c.toNat == 0xFEFF

/-- The simple lowercase mappings of the Unicode Character Database, version
15.0, as runs in ascending order: in the run
`(first, last, step, target)` the code point `first + k * step`, up to `last`,
maps to `target + k * step`; every other code point maps to itself. -/
def lowercaseRuns : List (Nat × Nat × Nat × Nat) :=
  [(0x41, 0x5A, 1, 0x61), (0xC0, 0xD6, 1, 0xE0), (0xD8, 0xDE, 1, 0xF8), (0x100, 0x12E, 2, 0x101),
   (0x132, 0x136, 2, 0x133), (0x139, 0x147, 2, 0x13A), (0x14A, 0x176, 2, 0x14B),
   (0x178, 0x178, 1, 0xFF), (0x179, 0x17D, 2, 0x17A), (0x181, 0x181, 1, 0x253),
   (0x182, 0x184, 2, 0x183), (0x186, 0x186, 1, 0x254), (0x187, 0x187, 1, 0x188),
   (0x189, 0x18A, 1, 0x256), (0x18B, 0x18B, 1, 0x18C), (0x18E, 0x18E, 1, 0x1DD),
   (0x18F, 0x18F, 1, 0x259), (0x190, 0x190, 1, 0x25B), (0x191, 0x191, 1, 0x192),
   (0x193, 0x193, 1, 0x260), (0x194, 0x194, 1, 0x263), (0x196, 0x196, 1, 0x269),
   (0x197, 0x197, 1, 0x268), (0x198, 0x198, 1, 0x199), (0x19C, 0x19C, 1, 0x26F),
   (0x19D, 0x19D, 1, 0x272), (0x19F, 0x19F, 1, 0x275), (0x1A0, 0x1A4, 2, 0x1A1),
   (0x1A6, 0x1A6, 1, 0x280), (0x1A7, 0x1A7, 1, 0x1A8), (0x1A9, 0x1A9, 1, 0x283),
   (0x1AC, 0x1AC, 1, 0x1AD), (0x1AE, 0x1AE, 1, 0x288), (0x1AF, 0x1AF, 1, 0x1B0),
   (0x1B1, 0x1B2, 1, 0x28A), (0x1B3, 0x1B5, 2, 0x1B4), (0x1B7, 0x1B7, 1, 0x292),
   (0x1B8, 0x1B8, 1, 0x1B9), (0x1BC, 0x1BC, 1, 0x1BD), (0x1C4, 0x1C4, 1, 0x1C6),
   (0x1C5, 0x1C5, 1, 0x1C6), (0x1C7, 0x1C7, 1, 0x1C9), (0x1C8, 0x1C8, 1, 0x1C9),
   (0x1CA, 0x1CA, 1, 0x1CC), (0x1CB, 0x1DB, 2, 0x1CC), (0x1DE, 0x1EE, 2, 0x1DF),
   (0x1F1, 0x1F1, 1, 0x1F3), (0x1F2, 0x1F4, 2, 0x1F3), (0x1F6, 0x1F6, 1, 0x195),
   (0x1F7, 0x1F7, 1, 0x1BF), (0x1F8, 0x21E, 2, 0x1F9), (0x220, 0x220, 1, 0x19E),
   (0x222, 0x232, 2, 0x223), (0x23A, 0x23A, 1, 0x2C65), (0x23B, 0x23B, 1, 0x23C),
   (0x23D, 0x23D, 1, 0x19A), (0x23E, 0x23E, 1, 0x2C66), (0x241, 0x241, 1, 0x242),
   (0x243, 0x243, 1, 0x180), (0x244, 0x244, 1, 0x289), (0x245, 0x245, 1, 0x28C),
   (0x246, 0x24E, 2, 0x247), (0x370, 0x372, 2, 0x371), (0x376, 0x376, 1, 0x377),
   (0x37F, 0x37F, 1, 0x3F3), (0x386, 0x386, 1, 0x3AC), (0x388, 0x38A, 1, 0x3AD),
   (0x38C, 0x38C, 1, 0x3CC), (0x38E, 0x38F, 1, 0x3CD), (0x391, 0x3A1, 1, 0x3B1),
   (0x3A3, 0x3AB, 1, 0x3C3), (0x3CF, 0x3CF, 1, 0x3D7), (0x3D8, 0x3EE, 2, 0x3D9),
   (0x3F4, 0x3F4, 1, 0x3B8), (0x3F7, 0x3F7, 1, 0x3F8), (0x3F9, 0x3F9, 1, 0x3F2),
   (0x3FA, 0x3FA, 1, 0x3FB), (0x3FD, 0x3FF, 1, 0x37B), (0x400, 0x40F, 1, 0x450),
   (0x410, 0x42F, 1, 0x430), (0x460, 0x480, 2, 0x461), (0x48A, 0x4BE, 2, 0x48B),
   (0x4C0, 0x4C0, 1, 0x4CF), (0x4C1, 0x4CD, 2, 0x4C2), (0x4D0, 0x52E, 2, 0x4D1),
   (0x531, 0x556, 1, 0x561), (0x10A0, 0x10C5, 1, 0x2D00), (0x10C7, 0x10C7, 1, 0x2D27),
   (0x10CD, 0x10CD, 1, 0x2D2D), (0x13A0, 0x13EF, 1, 0xAB70), (0x13F0, 0x13F5, 1, 0x13F8),
   (0x1C90, 0x1CBA, 1, 0x10D0), (0x1CBD, 0x1CBF, 1, 0x10FD), (0x1E00, 0x1E94, 2, 0x1E01),
   (0x1E9E, 0x1E9E, 1, 0xDF), (0x1EA0, 0x1EFE, 2, 0x1EA1), (0x1F08, 0x1F0F, 1, 0x1F00),
   (0x1F18, 0x1F1D, 1, 0x1F10), (0x1F28, 0x1F2F, 1, 0x1F20), (0x1F38, 0x1F3F, 1, 0x1F30),
   (0x1F48, 0x1F4D, 1, 0x1F40), (0x1F59, 0x1F5F, 2, 0x1F51), (0x1F68, 0x1F6F, 1, 0x1F60),
   (0x1F88, 0x1F8F, 1, 0x1F80), (0x1F98, 0x1F9F, 1, 0x1F90), (0x1FA8, 0x1FAF, 1, 0x1FA0),
   (0x1FB8, 0x1FB9, 1, 0x1FB0), (0x1FBA, 0x1FBB, 1, 0x1F70), (0x1FBC, 0x1FBC, 1, 0x1FB3),
   (0x1FC8, 0x1FCB, 1, 0x1F72), (0x1FCC, 0x1FCC, 1, 0x1FC3), (0x1FD8, 0x1FD9, 1, 0x1FD0),
   (0x1FDA, 0x1FDB, 1, 0x1F76), (0x1FE8, 0x1FE9, 1, 0x1FE0), (0x1FEA, 0x1FEB, 1, 0x1F7A),
   (0x1FEC, 0x1FEC, 1, 0x1FE5), (0x1FF8, 0x1FF9, 1, 0x1F78), (0x1FFA, 0x1FFB, 1, 0x1F7C),
   (0x1FFC, 0x1FFC, 1, 0x1FF3), (0x2126, 0x2126, 1, 0x3C9), (0x212A, 0x212A, 1, 0x6B),
   (0x212B, 0x212B, 1, 0xE5), (0x2132, 0x2132, 1, 0x214E), (0x2160, 0x216F, 1, 0x2170),
   (0x2183, 0x2183, 1, 0x2184), (0x24B6, 0x24CF, 1, 0x24D0), (0x2C00, 0x2C2F, 1, 0x2C30),
   (0x2C60, 0x2C60, 1, 0x2C61), (0x2C62, 0x2C62, 1, 0x26B), (0x2C63, 0x2C63, 1, 0x1D7D),
   (0x2C64, 0x2C64, 1, 0x27D), (0x2C67, 0x2C6B, 2, 0x2C68), (0x2C6D, 0x2C6D, 1, 0x251),
   (0x2C6E, 0x2C6E, 1, 0x271), (0x2C6F, 0x2C6F, 1, 0x250), (0x2C70, 0x2C70, 1, 0x252),
   (0x2C72, 0x2C72, 1, 0x2C73), (0x2C75, 0x2C75, 1, 0x2C76), (0x2C7E, 0x2C7F, 1, 0x23F),
   (0x2C80, 0x2CE2, 2, 0x2C81), (0x2CEB, 0x2CED, 2, 0x2CEC), (0x2CF2, 0x2CF2, 1, 0x2CF3),
   (0xA640, 0xA66C, 2, 0xA641), (0xA680, 0xA69A, 2, 0xA681), (0xA722, 0xA72E, 2, 0xA723),
   (0xA732, 0xA76E, 2, 0xA733), (0xA779, 0xA77B, 2, 0xA77A), (0xA77D, 0xA77D, 1, 0x1D79),
   (0xA77E, 0xA786, 2, 0xA77F), (0xA78B, 0xA78B, 1, 0xA78C), (0xA78D, 0xA78D, 1, 0x265),
   (0xA790, 0xA792, 2, 0xA791), (0xA796, 0xA7A8, 2, 0xA797), (0xA7AA, 0xA7AA, 1, 0x266),
   (0xA7AB, 0xA7AB, 1, 0x25C), (0xA7AC, 0xA7AC, 1, 0x261), (0xA7AD, 0xA7AD, 1, 0x26C),
   (0xA7AE, 0xA7AE, 1, 0x26A), (0xA7B0, 0xA7B0, 1, 0x29E), (0xA7B1, 0xA7B1, 1, 0x287),
   (0xA7B2, 0xA7B2, 1, 0x29D), (0xA7B3, 0xA7B3, 1, 0xAB53), (0xA7B4, 0xA7C2, 2, 0xA7B5),
   (0xA7C4, 0xA7C4, 1, 0xA794), (0xA7C5, 0xA7C5, 1, 0x282), (0xA7C6, 0xA7C6, 1, 0x1D8E),
   (0xA7C7, 0xA7C9, 2, 0xA7C8), (0xA7D0, 0xA7D0, 1, 0xA7D1), (0xA7D6, 0xA7D8, 2, 0xA7D7),
   (0xA7F5, 0xA7F5, 1, 0xA7F6), (0xFF21, 0xFF3A, 1, 0xFF41), (0x10400, 0x10427, 1, 0x10428),
   (0x104B0, 0x104D3, 1, 0x104D8), (0x10570, 0x1057A, 1, 0x10597), (0x1057C, 0x1058A, 1, 0x105A3),
   (0x1058C, 0x10592, 1, 0x105B3), (0x10594, 0x10595, 1, 0x105BB), (0x10C80, 0x10CB2, 1, 0x10CC0),
   (0x118A0, 0x118BF, 1, 0x118C0), (0x16E40, 0x16E5F, 1, 0x16E60), (0x1E900, 0x1E921, 1, 0x1E922)]

/-- The code points with the property Case_Ignorable (Unicode 15.0), as
inclusive ranges in ascending order. -/
def caseIgnorableRanges : List (Nat × Nat) :=
  [(0x27, 0x27), (0x2E, 0x2E), (0x3A, 0x3A), (0x5E, 0x5E), (0x60, 0x60), (0xA8, 0xA8),
   (0xAD, 0xAD), (0xAF, 0xAF), (0xB4, 0xB4), (0xB7, 0xB8), (0x2B0, 0x36F), (0x374, 0x375),
   (0x37A, 0x37A), (0x384, 0x385), (0x387, 0x387), (0x483, 0x489), (0x559, 0x559), (0x55F, 0x55F),
   (0x591, 0x5BD), (0x5BF, 0x5BF), (0x5C1, 0x5C2), (0x5C4, 0x5C5), (0x5C7, 0x5C7), (0x5F4, 0x5F4),
   (0x600, 0x605), (0x610, 0x61A), (0x61C, 0x61C), (0x640, 0x640), (0x64B, 0x65F), (0x670, 0x670),
   (0x6D6, 0x6DD), (0x6DF, 0x6E8), (0x6EA, 0x6ED), (0x70F, 0x70F), (0x711, 0x711), (0x730, 0x74A),
   (0x7A6, 0x7B0), (0x7EB, 0x7F5), (0x7FA, 0x7FA), (0x7FD, 0x7FD), (0x816, 0x82D), (0x859, 0x85B),
   (0x888, 0x888), (0x890, 0x891), (0x898, 0x89F), (0x8C9, 0x902), (0x93A, 0x93A), (0x93C, 0x93C),
   (0x941, 0x948), (0x94D, 0x94D), (0x951, 0x957), (0x962, 0x963), (0x971, 0x971), (0x981, 0x981),
   (0x9BC, 0x9BC), (0x9C1, 0x9C4), (0x9CD, 0x9CD), (0x9E2, 0x9E3), (0x9FE, 0x9FE), (0xA01, 0xA02),
   (0xA3C, 0xA3C), (0xA41, 0xA42), (0xA47, 0xA48), (0xA4B, 0xA4D), (0xA51, 0xA51), (0xA70, 0xA71),
   (0xA75, 0xA75), (0xA81, 0xA82), (0xABC, 0xABC), (0xAC1, 0xAC5), (0xAC7, 0xAC8), (0xACD, 0xACD),
   (0xAE2, 0xAE3), (0xAFA, 0xAFF), (0xB01, 0xB01), (0xB3C, 0xB3C), (0xB3F, 0xB3F), (0xB41, 0xB44),
   (0xB4D, 0xB4D), (0xB55, 0xB56), (0xB62, 0xB63), (0xB82, 0xB82), (0xBC0, 0xBC0), (0xBCD, 0xBCD),
   (0xC00, 0xC00), (0xC04, 0xC04), (0xC3C, 0xC3C), (0xC3E, 0xC40), (0xC46, 0xC48), (0xC4A, 0xC4D),
   (0xC55, 0xC56), (0xC62, 0xC63), (0xC81, 0xC81), (0xCBC, 0xCBC), (0xCBF, 0xCBF), (0xCC6, 0xCC6),
   (0xCCC, 0xCCD), (0xCE2, 0xCE3), (0xD00, 0xD01), (0xD3B, 0xD3C), (0xD41, 0xD44), (0xD4D, 0xD4D),
   (0xD62, 0xD63), (0xD81, 0xD81), (0xDCA, 0xDCA), (0xDD2, 0xDD4), (0xDD6, 0xDD6), (0xE31, 0xE31),
   (0xE34, 0xE3A), (0xE46, 0xE4E), (0xEB1, 0xEB1), (0xEB4, 0xEBC), (0xEC6, 0xEC6), (0xEC8, 0xECE),
   (0xF18, 0xF19), (0xF35, 0xF35), (0xF37, 0xF37), (0xF39, 0xF39), (0xF71, 0xF7E), (0xF80, 0xF84),
   (0xF86, 0xF87), (0xF8D, 0xF97), (0xF99, 0xFBC), (0xFC6, 0xFC6), (0x102D, 0x1030),
   (0x1032, 0x1037), (0x1039, 0x103A), (0x103D, 0x103E), (0x1058, 0x1059), (0x105E, 0x1060),
   (0x1071, 0x1074), (0x1082, 0x1082), (0x1085, 0x1086), (0x108D, 0x108D), (0x109D, 0x109D),
   (0x10FC, 0x10FC), (0x135D, 0x135F), (0x1712, 0x1714), (0x1732, 0x1733), (0x1752, 0x1753),
   (0x1772, 0x1773), (0x17B4, 0x17B5), (0x17B7, 0x17BD), (0x17C6, 0x17C6), (0x17C9, 0x17D3),
   (0x17D7, 0x17D7), (0x17DD, 0x17DD), (0x180B, 0x180F), (0x1843, 0x1843), (0x1885, 0x1886),
   (0x18A9, 0x18A9), (0x1920, 0x1922), (0x1927, 0x1928), (0x1932, 0x1932), (0x1939, 0x193B),
   (0x1A17, 0x1A18), (0x1A1B, 0x1A1B), (0x1A56, 0x1A56), (0x1A58, 0x1A5E), (0x1A60, 0x1A60),
   (0x1A62, 0x1A62), (0x1A65, 0x1A6C), (0x1A73, 0x1A7C), (0x1A7F, 0x1A7F), (0x1AA7, 0x1AA7),
   (0x1AB0, 0x1ACE), (0x1B00, 0x1B03), (0x1B34, 0x1B34), (0x1B36, 0x1B3A), (0x1B3C, 0x1B3C),
   (0x1B42, 0x1B42), (0x1B6B, 0x1B73), (0x1B80, 0x1B81), (0x1BA2, 0x1BA5), (0x1BA8, 0x1BA9),
   (0x1BAB, 0x1BAD), (0x1BE6, 0x1BE6), (0x1BE8, 0x1BE9), (0x1BED, 0x1BED), (0x1BEF, 0x1BF1),
   (0x1C2C, 0x1C33), (0x1C36, 0x1C37), (0x1C78, 0x1C7D), (0x1CD0, 0x1CD2), (0x1CD4, 0x1CE0),
   (0x1CE2, 0x1CE8), (0x1CED, 0x1CED), (0x1CF4, 0x1CF4), (0x1CF8, 0x1CF9), (0x1D2C, 0x1D6A),
   (0x1D78, 0x1D78), (0x1D9B, 0x1DFF), (0x1FBD, 0x1FBD), (0x1FBF, 0x1FC1), (0x1FCD, 0x1FCF),
   (0x1FDD, 0x1FDF), (0x1FED, 0x1FEF), (0x1FFD, 0x1FFE), (0x200B, 0x200F), (0x2018, 0x2019),
   (0x2024, 0x2024), (0x2027, 0x2027), (0x202A, 0x202E), (0x2060, 0x2064), (0x2066, 0x206F),
   (0x2071, 0x2071), (0x207F, 0x207F), (0x2090, 0x209C), (0x20D0, 0x20F0), (0x2C7C, 0x2C7D),
   (0x2CEF, 0x2CF1), (0x2D6F, 0x2D6F), (0x2D7F, 0x2D7F), (0x2DE0, 0x2DFF), (0x2E2F, 0x2E2F),
   (0x3005, 0x3005), (0x302A, 0x302D), (0x3031, 0x3035), (0x303B, 0x303B), (0x3099, 0x309E),
   (0x30FC, 0x30FE), (0xA015, 0xA015), (0xA4F8, 0xA4FD), (0xA60C, 0xA60C), (0xA66F, 0xA672),
   (0xA674, 0xA67D), (0xA67F, 0xA67F), (0xA69C, 0xA69F), (0xA6F0, 0xA6F1), (0xA700, 0xA721),
   (0xA770, 0xA770), (0xA788, 0xA78A), (0xA7F2, 0xA7F4), (0xA7F8, 0xA7F9), (0xA802, 0xA802),
   (0xA806, 0xA806), (0xA80B, 0xA80B), (0xA825, 0xA826), (0xA82C, 0xA82C), (0xA8C4, 0xA8C5),
   (0xA8E0, 0xA8F1), (0xA8FF, 0xA8FF), (0xA926, 0xA92D), (0xA947, 0xA951), (0xA980, 0xA982),
   (0xA9B3, 0xA9B3), (0xA9B6, 0xA9B9), (0xA9BC, 0xA9BD), (0xA9CF, 0xA9CF), (0xA9E5, 0xA9E6),
   (0xAA29, 0xAA2E), (0xAA31, 0xAA32), (0xAA35, 0xAA36), (0xAA43, 0xAA43), (0xAA4C, 0xAA4C),
   (0xAA70, 0xAA70), (0xAA7C, 0xAA7C), (0xAAB0, 0xAAB0), (0xAAB2, 0xAAB4), (0xAAB7, 0xAAB8),
   (0xAABE, 0xAABF), (0xAAC1, 0xAAC1), (0xAADD, 0xAADD), (0xAAEC, 0xAAED), (0xAAF3, 0xAAF4),
   (0xAAF6, 0xAAF6), (0xAB5B, 0xAB5F), (0xAB69, 0xAB6B), (0xABE5, 0xABE5), (0xABE8, 0xABE8),
   (0xABED, 0xABED), (0xFB1E, 0xFB1E), (0xFBB2, 0xFBC2), (0xFE00, 0xFE0F), (0xFE13, 0xFE13),
   (0xFE20, 0xFE2F), (0xFE52, 0xFE52), (0xFE55, 0xFE55), (0xFEFF, 0xFEFF), (0xFF07, 0xFF07),
   (0xFF0E, 0xFF0E), (0xFF1A, 0xFF1A), (0xFF3E, 0xFF3E), (0xFF40, 0xFF40), (0xFF70, 0xFF70),
   (0xFF9E, 0xFF9F), (0xFFE3, 0xFFE3), (0xFFF9, 0xFFFB), (0x101FD, 0x101FD), (0x102E0, 0x102E0),
   (0x10376, 0x1037A), (0x10780, 0x10785), (0x10787, 0x107B0), (0x107B2, 0x107BA),
   (0x10A01, 0x10A03), (0x10A05, 0x10A06), (0x10A0C, 0x10A0F), (0x10A38, 0x10A3A),
   (0x10A3F, 0x10A3F), (0x10AE5, 0x10AE6), (0x10D24, 0x10D27), (0x10EAB, 0x10EAC),
   (0x10EFD, 0x10EFF), (0x10F46, 0x10F50), (0x10F82, 0x10F85), (0x11001, 0x11001),
   (0x11038, 0x11046), (0x11070, 0x11070), (0x11073, 0x11074), (0x1107F, 0x11081),
   (0x110B3, 0x110B6), (0x110B9, 0x110BA), (0x110BD, 0x110BD), (0x110C2, 0x110C2),
   (0x110CD, 0x110CD), (0x11100, 0x11102), (0x11127, 0x1112B), (0x1112D, 0x11134),
   (0x11173, 0x11173), (0x11180, 0x11181), (0x111B6, 0x111BE), (0x111C9, 0x111CC),
   (0x111CF, 0x111CF), (0x1122F, 0x11231), (0x11234, 0x11234), (0x11236, 0x11237),
   (0x1123E, 0x1123E), (0x11241, 0x11241), (0x112DF, 0x112DF), (0x112E3, 0x112EA),
   (0x11300, 0x11301), (0x1133B, 0x1133C), (0x11340, 0x11340), (0x11366, 0x1136C),
   (0x11370, 0x11374), (0x11438, 0x1143F), (0x11442, 0x11444), (0x11446, 0x11446),
   (0x1145E, 0x1145E), (0x114B3, 0x114B8), (0x114BA, 0x114BA), (0x114BF, 0x114C0),
   (0x114C2, 0x114C3), (0x115B2, 0x115B5), (0x115BC, 0x115BD), (0x115BF, 0x115C0),
   (0x115DC, 0x115DD), (0x11633, 0x1163A), (0x1163D, 0x1163D), (0x1163F, 0x11640),
   (0x116AB, 0x116AB), (0x116AD, 0x116AD), (0x116B0, 0x116B5), (0x116B7, 0x116B7),
   (0x1171D, 0x1171F), (0x11722, 0x11725), (0x11727, 0x1172B), (0x1182F, 0x11837),
   (0x11839, 0x1183A), (0x1193B, 0x1193C), (0x1193E, 0x1193E), (0x11943, 0x11943),
   (0x119D4, 0x119D7), (0x119DA, 0x119DB), (0x119E0, 0x119E0), (0x11A01, 0x11A0A),
   (0x11A33, 0x11A38), (0x11A3B, 0x11A3E), (0x11A47, 0x11A47), (0x11A51, 0x11A56),
   (0x11A59, 0x11A5B), (0x11A8A, 0x11A96), (0x11A98, 0x11A99), (0x11C30, 0x11C36),
   (0x11C38, 0x11C3D), (0x11C3F, 0x11C3F), (0x11C92, 0x11CA7), (0x11CAA, 0x11CB0),
   (0x11CB2, 0x11CB3), (0x11CB5, 0x11CB6), (0x11D31, 0x11D36), (0x11D3A, 0x11D3A),
   (0x11D3C, 0x11D3D), (0x11D3F, 0x11D45), (0x11D47, 0x11D47), (0x11D90, 0x11D91),
   (0x11D95, 0x11D95), (0x11D97, 0x11D97), (0x11EF3, 0x11EF4), (0x11F00, 0x11F01),
   (0x11F36, 0x11F3A), (0x11F40, 0x11F40), (0x11F42, 0x11F42), (0x13430, 0x13440),
   (0x13447, 0x13455), (0x16AF0, 0x16AF4), (0x16B30, 0x16B36), (0x16B40, 0x16B43),
   (0x16F4F, 0x16F4F), (0x16F8F, 0x16F9F), (0x16FE0, 0x16FE1), (0x16FE3, 0x16FE4),
   (0x1AFF0, 0x1AFF3), (0x1AFF5, 0x1AFFB), (0x1AFFD, 0x1AFFE), (0x1BC9D, 0x1BC9E),
   (0x1BCA0, 0x1BCA3), (0x1CF00, 0x1CF2D), (0x1CF30, 0x1CF46), (0x1D167, 0x1D169),
   (0x1D173, 0x1D182), (0x1D185, 0x1D18B), (0x1D1AA, 0x1D1AD), (0x1D242, 0x1D244),
   (0x1DA00, 0x1DA36), (0x1DA3B, 0x1DA6C), (0x1DA75, 0x1DA75), (0x1DA84, 0x1DA84),
   (0x1DA9B, 0x1DA9F), (0x1DAA1, 0x1DAAF), (0x1E000, 0x1E006), (0x1E008, 0x1E018),
   (0x1E01B, 0x1E021), (0x1E023, 0x1E024), (0x1E026, 0x1E02A), (0x1E030, 0x1E06D),
   (0x1E08F, 0x1E08F), (0x1E130, 0x1E13D), (0x1E2AE, 0x1E2AE), (0x1E2EC, 0x1E2EF),
   (0x1E4EB, 0x1E4EF), (0x1E8D0, 0x1E8D6), (0x1E944, 0x1E94B), (0x1F3FB, 0x1F3FF),
   (0xE0001, 0xE0001), (0xE0020, 0xE007F), (0xE0100, 0xE01EF)]

/-- The code points with the property Cased (Unicode 15.0), as inclusive
ranges in ascending order. -/
def casedRanges : List (Nat × Nat) :=
  [(0x41, 0x5A), (0x61, 0x7A), (0xAA, 0xAA), (0xB5, 0xB5), (0xBA, 0xBA), (0xC0, 0xD6),
   (0xD8, 0xF6), (0xF8, 0x1BA), (0x1BC, 0x1BF), (0x1C4, 0x293), (0x295, 0x2B8), (0x2C0, 0x2C1),
   (0x2E0, 0x2E4), (0x345, 0x345), (0x370, 0x373), (0x376, 0x377), (0x37A, 0x37D), (0x37F, 0x37F),
   (0x386, 0x386), (0x388, 0x38A), (0x38C, 0x38C), (0x38E, 0x3A1), (0x3A3, 0x3F5), (0x3F7, 0x481),
   (0x48A, 0x52F), (0x531, 0x556), (0x560, 0x588), (0x10A0, 0x10C5), (0x10C7, 0x10C7),
   (0x10CD, 0x10CD), (0x10D0, 0x10FA), (0x10FC, 0x10FF), (0x13A0, 0x13F5), (0x13F8, 0x13FD),
   (0x1C80, 0x1C88), (0x1C90, 0x1CBA), (0x1CBD, 0x1CBF), (0x1D00, 0x1DBF), (0x1E00, 0x1F15),
   (0x1F18, 0x1F1D), (0x1F20, 0x1F45), (0x1F48, 0x1F4D), (0x1F50, 0x1F57), (0x1F59, 0x1F59),
   (0x1F5B, 0x1F5B), (0x1F5D, 0x1F5D), (0x1F5F, 0x1F7D), (0x1F80, 0x1FB4), (0x1FB6, 0x1FBC),
   (0x1FBE, 0x1FBE), (0x1FC2, 0x1FC4), (0x1FC6, 0x1FCC), (0x1FD0, 0x1FD3), (0x1FD6, 0x1FDB),
   (0x1FE0, 0x1FEC), (0x1FF2, 0x1FF4), (0x1FF6, 0x1FFC), (0x2071, 0x2071), (0x207F, 0x207F),
   (0x2090, 0x209C), (0x2102, 0x2102), (0x2107, 0x2107), (0x210A, 0x2113), (0x2115, 0x2115),
   (0x2119, 0x211D), (0x2124, 0x2124), (0x2126, 0x2126), (0x2128, 0x2128), (0x212A, 0x212D),
   (0x212F, 0x2134), (0x2139, 0x2139), (0x213C, 0x213F), (0x2145, 0x2149), (0x214E, 0x214E),
   (0x2160, 0x217F), (0x2183, 0x2184), (0x24B6, 0x24E9), (0x2C00, 0x2CE4), (0x2CEB, 0x2CEE),
   (0x2CF2, 0x2CF3), (0x2D00, 0x2D25), (0x2D27, 0x2D27), (0x2D2D, 0x2D2D), (0xA640, 0xA66D),
   (0xA680, 0xA69D), (0xA722, 0xA787), (0xA78B, 0xA78E), (0xA790, 0xA7CA), (0xA7D0, 0xA7D1),
   (0xA7D3, 0xA7D3), (0xA7D5, 0xA7D9), (0xA7F2, 0xA7F6), (0xA7F8, 0xA7FA), (0xAB30, 0xAB5A),
   (0xAB5C, 0xAB69), (0xAB70, 0xABBF), (0xFB00, 0xFB06), (0xFB13, 0xFB17), (0xFF21, 0xFF3A),
   (0xFF41, 0xFF5A), (0x10400, 0x1044F), (0x104B0, 0x104D3), (0x104D8, 0x104FB),
   (0x10570, 0x1057A), (0x1057C, 0x1058A), (0x1058C, 0x10592), (0x10594, 0x10595),
   (0x10597, 0x105A1), (0x105A3, 0x105B1), (0x105B3, 0x105B9), (0x105BB, 0x105BC),
   (0x10780, 0x10780), (0x10783, 0x10785), (0x10787, 0x107B0), (0x107B2, 0x107BA),
   (0x10C80, 0x10CB2), (0x10CC0, 0x10CF2), (0x118A0, 0x118DF), (0x16E40, 0x16E7F),
   (0x1D400, 0x1D454), (0x1D456, 0x1D49C), (0x1D49E, 0x1D49F), (0x1D4A2, 0x1D4A2),
   (0x1D4A5, 0x1D4A6), (0x1D4A9, 0x1D4AC), (0x1D4AE, 0x1D4B9), (0x1D4BB, 0x1D4BB),
   (0x1D4BD, 0x1D4C3), (0x1D4C5, 0x1D505), (0x1D507, 0x1D50A), (0x1D50D, 0x1D514),
   (0x1D516, 0x1D51C), (0x1D51E, 0x1D539), (0x1D53B, 0x1D53E), (0x1D540, 0x1D544),
   (0x1D546, 0x1D546), (0x1D54A, 0x1D550), (0x1D552, 0x1D6A5), (0x1D6A8, 0x1D6C0),
   (0x1D6C2, 0x1D6DA), (0x1D6DC, 0x1D6FA), (0x1D6FC, 0x1D714), (0x1D716, 0x1D734),
   (0x1D736, 0x1D74E), (0x1D750, 0x1D76E), (0x1D770, 0x1D788), (0x1D78A, 0x1D7A8),
   (0x1D7AA, 0x1D7C2), (0x1D7C4, 0x1D7CB), (0x1DF00, 0x1DF09), (0x1DF0B, 0x1DF1E),
   (0x1DF25, 0x1DF2A), (0x1E030, 0x1E06D), (0x1E900, 0x1E943), (0x1F130, 0x1F149),
   (0x1F150, 0x1F169), (0x1F170, 0x1F189)]

/-- Membership of a code point in a list of inclusive ranges in ascending
order. -/
def inRanges : List (Nat × Nat) → Nat → Bool
  | [], _ => false
  | (first, last) :: rest, n =>
    if n < first then false else if n ≤ last then true else inRanges rest n

/-- The simple lowercase mapping of a code point, looked up in runs in
ascending order. -/
def simpleLowercase : List (Nat × Nat × Nat × Nat) → Nat → Nat
  | [], n => n
  | (first, last, step, target) :: rest, n =>
    if n < first then n
    else if n ≤ last && (n - first) % step == 0 then target + (n - first)
    else simpleLowercase rest n

/-- The lowercase mapping of one code point outside a sigma context: U+0130
maps to the two code points U+0069 U+0307 (SpecialCasing), every other code
point to its simple lowercase mapping. -/
def lowercaseOf (c : Char) : List Char :=
  if c.toNat = 0x130 then [Char.ofNat 0x69, Char.ofNat 0x307]
  else [Char.ofNat (simpleLowercase lowercaseRuns c.toNat)]

/-- Whether the first code point of the list that is not Case_Ignorable exists
and is Cased. -/
def casedAhead (l : List Char) : Bool :=
  match l.dropWhile (fun c => inRanges caseIgnorableRanges c.toNat) with
  | [] => false
  | c :: _ => inRanges casedRanges c.toNat

/-- Lowercasing of the code points that follow `before`, the code points
already read, nearest first. U+03A3 maps to the final sigma U+03C2 when it is
preceded by a cased letter and not followed by one, Case_Ignorable code points
skipped on both sides (Final_Sigma), and to U+03C3 otherwise. -/
def lowercaseFrom (before : List Char) : List Char → List Char
  | [] => []
  | c :: rest =>
    (if c.toNat = 0x3A3 then
      (if casedAhead before && !casedAhead rest then [Char.ofNat 0x3C2] else [Char.ofNat 0x3C3])
    else lowercaseOf c) ++ lowercaseFrom (c :: before) rest

/-- The method `String.prototype.toLowerCase`: the locale-insensitive
lowercasing of the Unicode Character Database. -/
def toLowerCase (s : String) : String :=
  String.mk (lowercaseFrom [] s.data)

/-- The method `String.prototype.trim`: drops the white space and the line
terminators at both ends. -/
def trim (s : String) : String :=
  String.mk ((s.data.dropWhile isWhiteSpaceOrLineTerminator).reverse.dropWhile
    isWhiteSpaceOrLineTerminator).reverse

/-- The method `a.includes(b)`: `b` occurs in `a` as a contiguous substring.
On strings without lone surrogates an occurrence of code units is an occurrence
of code points. -/
def includes (a b : String) : Bool :=
  decide (b.data <:+: a.data)

/-- Truthiness of a JavaScript string: every string but the empty one. -/
def truthy (s : String) : Bool :=
  !(s == "")

/-! ## Data model -/

/-- A record of the `users` array. -/
structure User where
  name : String
  email : String
  id : String
  role : String
  password : String
  deriving DecidableEq, Repr

/-- A record of the `items` array. -/
structure Item where
  id : Nat
  type : String
  name : String
  location : String
  description : String
  date : String
  reporter : String
  userId : String
  status : String
  image : Option String
  deriving DecidableEq, Repr

/-- A record of the `notifications` array. The field `matches` of the source
is `matchedItemIds` here, `matches` being a reserved word. -/
structure Notification where
  id : Nat
  forUserId : String
  createdAt : Nat
  seen : Bool
  title : String
  message : String
  matchedItemIds : List Nat
  deriving DecidableEq, Repr

/-- The four module-level variables of `script.js`. -/
structure State where
  users : List User
  items : List Item
  notifications : List Notification
  currentUser : Option User
  deriving DecidableEq, Repr

/-- The function `uid`: `Date.now() + Math.floor(Math.random() * 999)`; the
second argument is the value of `Math.floor(Math.random() * 999)`, an integer
from 0 to 998. -/
def uid (now : Nat) (rnd : Fin 999) : Nat :=
  now + rnd.val

/-! ## Matching and notifications -/

/-- The expression `newItem.type === 'lost' ? 'found' : 'lost'`. -/
def oppositeType (t : String) : String :=
  if t = "lost" then "found" else "lost"

/-- The predicate of the `filter` in `checkMatchesFor`. -/
def isCandidate (newItem it : Item) : Bool :=
  it.type == oppositeType newItem.type && it.status != "claimed" && it.id != newItem.id &&
    (includes (toLowerCase it.name) (toLowerCase newItem.name) ||
      includes (toLowerCase newItem.name) (toLowerCase it.name))

/-- The array `matches` of `checkMatchesFor`: the ids of the candidates, in
registry order. -/
def matchIds (items : List Item) (newItem : Item) : List Nat :=
  (items.filter (isCandidate newItem)).map Item.id

/-- The readings a handler makes while it creates one notification: the clock
and the random draw inside `uid()`, then the clock for `createdAt`. -/
structure NoteEnv where
  uidNow : Nat
  rnd : Fin 999
  createdNow : Nat
  deriving DecidableEq, Repr

/-- The function `checkMatchesFor`. -/
def checkMatchesFor (s : State) (newItem : Item) (e : NoteEnv) : State :=
  match matchIds s.items newItem with
  | [] => s
  | m :: _ =>
    match s.items.find? (fun item => item.id == m) with
    | none => s
    | some found =>
      if truthy found.userId then
        { s with notifications := s.notifications ++
            [{ id := uid e.uidNow e.rnd
               forUserId := found.userId
               createdAt := e.createdNow
               seen := false
               title := "Possible match for your item \"" ++ found.name ++ "\""
               message := "A similar item was just reported: \"" ++ newItem.name ++ "\"."
               matchedItemIds := [newItem.id] }] }
      else s

/-- The handler `markNotificationSeen`. -/
def markNotificationSeen (s : State) (nid : Nat) : State :=
  { s with notifications :=
      s.notifications.map (fun n => if n.id == nid then { n with seen := true } else n) }

/-- The handler `dismissNotification`. -/
def dismissNotification (s : State) (nid : Nat) : State :=
  { s with notifications := s.notifications.filter (fun n => n.id != nid) }

/-! ## Sample data and authentication -/

/-- The function `ensureSampleUsers`. -/
def ensureSampleUsers (s : State) : State :=
  if s.users.length = 0 then
    { s with users := s.users ++
        [{ name := "Admin", email := "admin@school.edu", id := "A001", role := "admin",
           password := "admin123" },
         { name := "John Doe", email := "john.doe@school.edu", id := "S001", role := "student",
           password := "student123" },
         { name := "Jane Smith", email := "jane.smith@school.edu", id := "T001", role := "staff",
           password := "staff123" }] }
  else s

/-- The function `showAppFor`, which sets `currentUser`. -/
def showAppFor (s : State) (user : User) : State :=
  { s with currentUser := some user }

/-- How `registerUser` ends: with the alert "Please complete the form.", with
the alert "A user with this email or ID already exists.", or with the user
pushed and the alert "Registered successfully". -/
inductive RegisterOutcome where
  | incomplete
  | conflict
  | registered
  deriving DecidableEq, Repr

/-- The handler `registerUser`; the arguments are the values of the form fields
`regName`, `regEmail`, `regId`, `regRole` and `regPassword`. -/
def registerUser (s : State) (regName regEmail regId regRole regPassword : String) :
    RegisterOutcome × State :=
  let name := trim regName
  let email := toLowerCase (trim regEmail)
  let id := trim regId
  let role := regRole
  let pw := regPassword
  if !truthy name || !truthy email || !truthy id || !truthy role || !truthy pw then
    (.incomplete, s)
  else if (s.users.find? (fun u => u.email == email || u.id == id)).isSome then
    (.conflict, s)
  else
    (.registered,
      { s with users := s.users ++
          [{ name := name, email := email, id := id, role := role, password := pw }] })

/-- How `loginUser` ends: with the alert "Invalid credentials", or in
`showAppFor`. -/
inductive LoginOutcome where
  | invalid
  | loggedIn
  deriving DecidableEq, Repr

/-- The predicate of the `find` in `loginUser`. -/
def credentialsMatch (ident pw : String) (u : User) : Bool :=
  (u.email == ident || toLowerCase u.id == ident) && u.password == pw

/-- The handler `loginUser`; the arguments are the values of the form fields
`loginEmailTextfield` and `loginPasswordTextfield`. -/
def loginUser (s : State) (loginEmail loginPassword : String) : LoginOutcome × State :=
  let ident := toLowerCase (trim loginEmail)
  let pw := loginPassword
  match s.users.find? (credentialsMatch ident pw) with
  | none => (.invalid, s)
  | some user => (.loggedIn, showAppFor s user)

/-! ## Item reporting -/

/-- The values a report form holds when it is submitted. `image` is the value
the promise of `handleImageUpload` resolves to. -/
structure ReportForm where
  name : String
  location : String
  description : String
  date : String
  image : Option String
  deriving DecidableEq, Repr

/-- The readings a report handler makes: `todayISO()`, and the clock and the
random draw inside the `uid()` of the new item. -/
structure ReportEnv where
  today : String
  uidNow : Nat
  rnd : Fin 999
  deriving DecidableEq, Repr

/-- How `submitLost` and `submitFound` end: with the alert "Please login
first.", with the alert "Please fill all required fields.", or with the item
pushed and the alert "... item reported successfully." -/
inductive SubmitOutcome where
  | notLoggedIn
  | missingFields
  | reported
  deriving DecidableEq, Repr

/-- The handler `submitLost`. -/
def submitLost (s : State) (f : ReportForm) (r : ReportEnv) (e : NoteEnv) :
    SubmitOutcome × State :=
  match s.currentUser with
  | none => (.notLoggedIn, s)
  | some currentUser =>
    let name := trim f.name
    let location := trim f.location
    let description := trim f.description
    let date := if truthy f.date then f.date else r.today
    if !truthy name || !truthy location || !truthy date then (.missingFields, s)
    else
      let newItem : Item :=
        { id := uid r.uidNow r.rnd, type := "lost", name := name, location := location,
          description := description, date := date, reporter := currentUser.name,
          userId := currentUser.id, status := "active", image := f.image }
      (.reported, checkMatchesFor { s with items := s.items ++ [newItem] } newItem e)

/-- The handler `submitFound`. -/
def submitFound (s : State) (f : ReportForm) (r : ReportEnv) (e : NoteEnv) :
    SubmitOutcome × State :=
  match s.currentUser with
  | none => (.notLoggedIn, s)
  | some currentUser =>
    let name := trim f.name
    let location := trim f.location
    let description := trim f.description
    let date := if truthy f.date then f.date else r.today
    if !truthy name || !truthy location || !truthy date then (.missingFields, s)
    else
      let newItem : Item :=
        { id := uid r.uidNow r.rnd, type := "found", name := name, location := location,
          description := description, date := date, reporter := currentUser.name,
          userId := currentUser.id, status := "active", image := f.image }
      (.reported, checkMatchesFor { s with items := s.items ++ [newItem] } newItem e)

/-! ## Claims and actions -/

/-- How `createClaim` ends: by the bare `return` of its guard, or after the
push with the alert "Your claim has been sent to the reporter." The value it
returns is `undefined` either way. -/
inductive ClaimOutcome where
  | returnedEarly
  | claimSent
  deriving DecidableEq, Repr

/-- The handler `createClaim`. -/
def createClaim (s : State) (itemId : Nat) (e : NoteEnv) : ClaimOutcome × State :=
  match s.items.find? (fun x => x.id == itemId), s.currentUser with
  | some item, some currentUser =>
    (.claimSent,
      { s with notifications := s.notifications ++
          [{ id := uid e.uidNow e.rnd
             forUserId := item.userId
             createdAt := e.createdNow
             seen := false
             title := "Claim attempt for \"" ++ item.name ++ "\""
             message := currentUser.name ++ " (ID: " ++ currentUser.id ++
               ") wants to claim this item."
             matchedItemIds := [item.id] }] })
  | _, _ => (.returnedEarly, s)

/-- What a call of a handler hands to its caller: the value `undefined`, which
a bare `return` and the end of the body both give, or an exception. -/
inductive Completion where
  | returnsUndefined
  | throws (error : String)
  deriving DecidableEq, Repr

/-- What `createClaim` hands to its caller: the guard ends in a bare `return`,
the other path runs to the end of the body, and no path has a `throw`. -/
def createClaimCompletion (s : State) (itemId : Nat) : Completion :=
  match s.items.find? (fun x => x.id == itemId), s.currentUser with
  | some _, some _ => .returnsUndefined
  | _, _ => .returnsUndefined

/-- The handler `markItemClaimed`. -/
def markItemClaimed (s : State) (itemId : Nat) : State :=
  { s with items :=
      s.items.map (fun it => if it.id == itemId then { it with status := "claimed" } else it) }

/-! ## Rendering -/

/-- The condition under which `itemCardElement` renders the button
"Mark as Claimed", the only caller of `markItemClaimed`. -/
def markClaimedBtn (currentUser : Option User) (it : Item) : Bool :=
  match currentUser with
  | none => false
  | some u => it.status != "claimed" && (u.id == it.userId || u.role == "admin")

/-- The constant `statusMatch` of the filter in `renderBrowse`. -/
def statusMatch (statusFilter : String) (it : Item) : Bool :=
  !truthy statusFilter || it.status == statusFilter ||
    (statusFilter == "lost" && it.type == "lost" && it.status != "claimed") ||
    (statusFilter == "found" && it.type == "found" && it.status != "claimed")

/-- The constant `queryMatch` of the filter in `renderBrowse`. -/
def queryMatch (query : String) (it : Item) : Bool :=
  !truthy query || includes (toLowerCase it.name) query ||
    includes (toLowerCase it.location) query

/-- The sort `.sort((a, b) => b.id - a.id)`: a stable sort by descending id. -/
def sortByIdDesc (l : List Item) : List Item :=
  l.insertionSort (fun a b => b.id ≤ a.id)

/-- The list `filtered` of `renderBrowse`: the items it renders, in order;
the arguments are the values of the fields `searchInput` and `statusFilter`. -/
def renderBrowse (items : List Item) (searchInput statusFilter : String) : List Item :=
  let query := toLowerCase searchInput
  sortByIdDesc (items.filter (fun it =>
    if !statusMatch statusFilter it then false else queryMatch query it))

/-! ## The core operations as a transition system -/

/-- The core operations, each with the inputs it reads. -/
inductive Op where
  | submitLost (f : ReportForm) (r : ReportEnv) (e : NoteEnv)
  | submitFound (f : ReportForm) (r : ReportEnv) (e : NoteEnv)
  | checkMatchesFor (newItem : Item) (e : NoteEnv)
  | createClaim (itemId : Nat) (e : NoteEnv)
  | markItemClaimed (itemId : Nat)
  | markNotificationSeen (nid : Nat)
  | dismissNotification (nid : Nat)
  deriving DecidableEq, Repr

/-- The state after one core operation. -/
def step (s : State) : Op → State
  | .submitLost f r e => (submitLost s f r e).2
  | .submitFound f r e => (submitFound s f r e).2
  | .checkMatchesFor newItem e => checkMatchesFor s newItem e
  | .createClaim itemId e => (createClaim s itemId e).2
  | .markItemClaimed itemId => markItemClaimed s itemId
  | .markNotificationSeen nid => markNotificationSeen s nid
  | .dismissNotification nid => dismissNotification s nid

/-- The state after a sequence of core operations, run in order. -/
def run (s : State) (ops : List Op) : State :=
  ops.foldl step s

/-! ## Example data -/

/-- A found item named "backpack", reported by the sample user S001. -/
def foundBackpack : Item :=
  { id := 1, type := "found", name := "backpack", location := "Library", description := "",
    date := "2024-01-01", reporter := "John Doe", userId := "S001", status := "active",
    image := none }

/-- A lost item named "Blue Backpack", reported by the sample user T001. -/
def lostBlueBackpack : Item :=
  { id := 2, type := "lost", name := "Blue Backpack", location := "Gym", description := "",
    date := "2024-01-02", reporter := "Jane Smith", userId := "T001", status := "active",
    image := none }

/-- The state in which the found backpack was reported and the lost one has
just been appended. -/
def backpackState : State :=
  { users := [], items := [foundBackpack, lostBlueBackpack], notifications := [],
    currentUser := none }

/-- Some readings of the clock and of the random draw. -/
def sampleEnv : NoteEnv :=
  { uidNow := 1000, rnd := 5, createdNow := 1001 }

/-- The sample user T001, a staff member. -/
def janeSmith : User :=
  { name := "Jane Smith", email := "jane.smith@school.edu", id := "T001", role := "staff",
    password := "staff123" }

/-- The state in which the found backpack of S001 is in the registry and the
staff member T001 is logged in. -/
def janeBrowsing : State :=
  { users := [], items := [foundBackpack], notifications := [], currentUser := some janeSmith }

/-- The state after `ensureSampleUsers` on an empty store. -/
def sampleState : State :=
  ensureSampleUsers { users := [], items := [], notifications := [], currentUser := none }

/-- The found backpack after `markItemClaimed`, under a later id. -/
def claimedBackpack : Item :=
  { foundBackpack with id := 3, status := "claimed" }

/-- A registry with an active found item, an active lost item and a claimed
found item. -/
def mixedRegistry : List Item :=
  [foundBackpack, lostBlueBackpack, claimedBackpack]

/-- The state in which the registry holds the found backpack after it was
claimed, and the staff member T001 is logged in. -/
def janeAfterClaimed : State :=
  { users := [], items := [lostBlueBackpack, claimedBackpack], notifications := [],
    currentUser := some janeSmith }

/-- A lost item named "Umbrella", reported by the sample user T001. -/
def lostUmbrella : Item :=
  { id := 7, type := "lost", name := "Umbrella", location := "Canteen", description := "",
    date := "2024-01-03", reporter := "Jane Smith", userId := "T001", status := "active",
    image := none }

/-- The state in which the lost umbrella has just been appended to the registry
of the two backpacks. -/
def umbrellaState : State :=
  { users := [], items := [foundBackpack, lostBlueBackpack, lostUmbrella], notifications := [],
    currentUser := some janeSmith }

/-- A report form for a set of keys found in the lobby. -/
def keysForm : ReportForm :=
  { name := " Keys ", location := "Lobby", description := "", date := "", image := none }

/-- Some readings for the report handlers. -/
def sampleReportEnv : ReportEnv :=
  { today := "2024-01-05", uidNow := 2000, rnd := 17 }

/-- A notification with the given id, addressed to S001. -/
def sampleNote (id : Nat) : Notification :=
  { id := id, forUserId := "S001", createdAt := 1001, seen := false, title := "t",
    message := "m", matchedItemIds := [2] }

/-- A state with three notifications, two of which share the id 5. -/
def notifiedState : State :=
  { users := [], items := [], notifications := [sampleNote 5, sampleNote 6, sampleNote 5],
    currentUser := none }

/-- The state in which the found backpack is in the registry and nobody is
logged in. -/
def loggedOutState : State :=
  { users := [], items := [foundBackpack], notifications := [sampleNote 5], currentUser := none }

/-- The state in which the registry is empty and the staff member T001 is
logged in. -/
def janeEmptyRegistry : State :=
  { users := [], items := [], notifications := [], currentUser := some janeSmith }

/-- A report form for a wallet lost in the car park. -/
def walletForm : ReportForm :=
  { name := "Wallet", location := "Car park", description := "", date := "2024-01-05",
    image := none }

/-- Readings one millisecond after `sampleReportEnv`, with a draw one less. -/
def laterReportEnv : ReportEnv :=
  { today := "2024-01-05", uidNow := 2001, rnd := 16 }

/-- A found item named "écharpe", reported by the sample user S001. -/
def foundScarf : Item :=
  { id := 11, type := "found", name := "écharpe", location := "Hall", description := "",
    date := "2024-02-01", reporter := "John Doe", userId := "S001", status := "active",
    image := none }

/-- A found item named "ÉCHARPE", reported by a user X1. -/
def foundScarfUpper : Item :=
  { id := 12, type := "found", name := "ÉCHARPE", location := "Hall", description := "",
    date := "2024-02-02", reporter := "Xavier", userId := "X1", status := "active",
    image := none }

/-- A lost item named "ÉCHARPE", reported by the sample user T001. -/
def lostScarfUpper : Item :=
  { id := 13, type := "lost", name := "ÉCHARPE", location := "Gym", description := "",
    date := "2024-02-03", reporter := "Jane Smith", userId := "T001", status := "active",
    image := none }

/-- The state in which the lost "ÉCHARPE" has just been appended to the
registry of the two found scarves. -/
def scarfState : State :=
  { users := [], items := [foundScarf, foundScarfUpper, lostScarfUpper], notifications := [],
    currentUser := some janeSmith }

/-! ## Auxiliary facts -/

theorem truthy_iff (s : String) : truthy s = true ↔ s ≠ "" := by
  simp [truthy]

theorem includes_iff (a b : String) : includes a b = true ↔ b.data <:+: a.data := by
  simp [includes]

theorem isCandidate_iff (n it : Item) :
    isCandidate n it = true ↔
      it.id ≠ n.id ∧ it.type = oppositeType n.type ∧ it.status ≠ "claimed" ∧
        ((toLowerCase n.name).data <:+: (toLowerCase it.name).data ∨
          (toLowerCase it.name).data <:+: (toLowerCase n.name).data) := by
  simp only [isCandidate, Bool.and_eq_true, Bool.or_eq_true, includes_iff, beq_iff_eq,
    bne_iff_ne]
  tauto

/-- In a registry with pairwise distinct ids, looking an item up by its id
finds that item. -/
theorem find?_id_eq_some (l : List Item) (c : Item) (hnodup : (l.map Item.id).Nodup)
    (hc : c ∈ l) : l.find? (fun item => item.id == c.id) = some c := by
  induction l with
  | nil => simp at hc
  | cons x xs ih =>
    rw [List.map_cons, List.nodup_cons] at hnodup
    rcases List.mem_cons.mp hc with rfl | hmem
    · simp
    · have hne : x.id ≠ c.id := by
        intro h
        exact hnodup.1 (h ▸ List.mem_map_of_mem Item.id hmem)
      rw [List.find?_cons_of_neg _ (by simpa using hne)]
      exact ih hnodup.2 hmem

/-- The candidates of a registry that starts with non-candidates `pre` followed
by a candidate `c` start with `c`. -/
theorem filter_isCandidate_first (n c : Item) (pre post : List Item)
    (hc : isCandidate n c = true) (hpre : ∀ x ∈ pre, isCandidate n x = false) :
    (pre ++ c :: post).filter (isCandidate n) = c :: post.filter (isCandidate n) := by
  rw [List.filter_append, List.filter_cons_of_pos hc]
  have : pre.filter (isCandidate n) = [] := by
    rw [List.filter_eq_nil_iff]
    intro x hx
    simp [hpre x hx]
  rw [this, List.nil_append]

/-- With no candidate in the registry, `checkMatchesFor` returns the state it
was given. -/
theorem checkMatchesFor_of_no_candidate (s : State) (n : Item) (e : NoteEnv)
    (h : ∀ it ∈ s.items, isCandidate n it = false) : checkMatchesFor s n e = s := by
  have : matchIds s.items n = [] := by
    unfold matchIds
    rw [List.map_eq_nil_iff, List.filter_eq_nil_iff]
    intro x hx
    simp [h x hx]
  simp [checkMatchesFor, this]

/-- The function `checkMatchesFor` changes neither the registry, nor the user
store, nor the session. -/
theorem checkMatchesFor_frame (s : State) (n : Item) (e : NoteEnv) :
    (checkMatchesFor s n e).items = s.items ∧ (checkMatchesFor s n e).users = s.users ∧
      (checkMatchesFor s n e).currentUser = s.currentUser := by
  unfold checkMatchesFor
  split
  · exact ⟨rfl, rfl, rfl⟩
  · split
    · exact ⟨rfl, rfl, rfl⟩
    · split <;> exact ⟨rfl, rfl, rfl⟩

/-- When the stored email is lowercase, the predicate of `loginUser` holds of a
user exactly when the email or the id equals the trimmed identifier ignoring
case and the password is the given one. -/
theorem credentialsMatch_iff (identifier pw : String) (u : User)
    (hlower : toLowerCase u.email = u.email) :
    credentialsMatch (toLowerCase (trim identifier)) pw u = true ↔
      (toLowerCase u.email = toLowerCase (trim identifier) ∨
        toLowerCase u.id = toLowerCase (trim identifier)) ∧ u.password = pw := by
  simp only [credentialsMatch, Bool.and_eq_true, Bool.or_eq_true, beq_iff_eq, hlower]

/-- With an empty search text, `renderBrowse` is the stable sort of the items
that pass `statusMatch`. -/
theorem renderBrowse_empty_query (items : List Item) (statusFilter : String) :
    renderBrowse items "" statusFilter =
      sortByIdDesc (items.filter (statusMatch statusFilter)) := by
  have hq : toLowerCase "" = "" := by decide
  simp only [renderBrowse, hq]
  congr 1
  apply List.filter_congr
  intro it _
  cases statusMatch statusFilter it <;> simp [queryMatch, truthy]

/-- Membership in the sorted list is membership in the list. -/
theorem mem_sortByIdDesc (l : List Item) (it : Item) : it ∈ sortByIdDesc l ↔ it ∈ l :=
  List.mem_insertionSort _

/-- Looking an id up in a registry that starts with items of other ids
followed by an item of that id finds that item. -/
theorem find?_id_first (itemId : Nat) (item : Item) (pre post : List Item)
    (hid : item.id = itemId) (hpre : ∀ x ∈ pre, x.id ≠ itemId) :
    (pre ++ item :: post).find? (fun x => x.id == itemId) = some item := by
  induction pre with
  | nil => simp [hid]
  | cons x xs ih =>
    have hx : x.id ≠ itemId := hpre x (List.mem_cons_self x xs)
    rw [List.cons_append, List.find?_cons_of_neg _ (by simpa using hx)]
    exact ih (fun y hy => hpre y (List.mem_cons_of_mem x hy))

/-- What `submitLost` does to the registry: on success it appends one item of
type "lost" and status "active"; otherwise the state is unchanged. -/
theorem submitLost_items (s : State) (f : ReportForm) (r : ReportEnv) (e : NoteEnv) :
    ((submitLost s f r e).1 = SubmitOutcome.reported ∧
      ∃ newItem : Item, (submitLost s f r e).2.items = s.items ++ [newItem] ∧
        newItem.status = "active" ∧ newItem.type = "lost") ∨
    ((submitLost s f r e).1 ≠ SubmitOutcome.reported ∧ (submitLost s f r e).2 = s) := by
  cases hcu : s.currentUser with
  | none =>
    refine Or.inr ?_
    simp [submitLost, hcu]
  | some u =>
    simp only [submitLost, hcu]
    generalize (if truthy f.date = true then f.date else r.today) = date
    by_cases hmiss : (!truthy (trim f.name) || !truthy (trim f.location) || !truthy date) = true
    · refine Or.inr ?_
      rw [if_pos hmiss]
      exact ⟨fun h => (by cases h), rfl⟩
    · refine Or.inl ?_
      rw [if_neg hmiss]
      exact ⟨rfl, _, (checkMatchesFor_frame _ _ e).1, rfl, rfl⟩

/-- What `submitFound` does to the registry: on success it appends one item of
type "found" and status "active"; otherwise the state is unchanged. -/
theorem submitFound_items (s : State) (f : ReportForm) (r : ReportEnv) (e : NoteEnv) :
    ((submitFound s f r e).1 = SubmitOutcome.reported ∧
      ∃ newItem : Item, (submitFound s f r e).2.items = s.items ++ [newItem] ∧
        newItem.status = "active" ∧ newItem.type = "found") ∨
    ((submitFound s f r e).1 ≠ SubmitOutcome.reported ∧ (submitFound s f r e).2 = s) := by
  cases hcu : s.currentUser with
  | none =>
    refine Or.inr ?_
    simp [submitFound, hcu]
  | some u =>
    simp only [submitFound, hcu]
    generalize (if truthy f.date = true then f.date else r.today) = date
    by_cases hmiss : (!truthy (trim f.name) || !truthy (trim f.location) || !truthy date) = true
    · refine Or.inr ?_
      rw [if_pos hmiss]
      exact ⟨fun h => (by cases h), rfl⟩
    · refine Or.inl ?_
      rw [if_neg hmiss]
      exact ⟨rfl, _, (checkMatchesFor_frame _ _ e).1, rfl, rfl⟩

/-- The function `createClaim` does not change the registry. -/
theorem createClaim_items (s : State) (itemId : Nat) (e : NoteEnv) :
    (createClaim s itemId e).2.items = s.items := by
  unfold createClaim
  split <;> rfl

/-- Setting the status of a claimed item to "claimed" gives the same item. -/
theorem with_claimed_eq (it : Item) (h : it.status = "claimed") :
    { it with status := "claimed" } = it := by
  cases it
  simp only at h
  subst h
  rfl

/-- One core operation keeps every claimed item where it is in the registry. -/
theorem step_keeps_claimed (s : State) (op : Op) (i : Nat) (it : Item)
    (hi : s.items[i]? = some it) (hc : it.status = "claimed") :
    (step s op).items[i]? = some it := by
  have happ : ∀ l : List Item, (s.items ++ l)[i]? = some it := by
    intro l
    have hlt : i < s.items.length := by
      by_contra hge
      rw [List.getElem?_eq_none (Nat.le_of_not_lt hge)] at hi
      cases hi
    rw [List.getElem?_append_left hlt, hi]
  cases op with
  | submitLost f r e =>
    rcases submitLost_items s f r e with ⟨_, newItem, hitems, _⟩ | ⟨_, hs⟩
    · simp only [step, hitems, happ]
    · simp only [step, hs, hi]
  | submitFound f r e =>
    rcases submitFound_items s f r e with ⟨_, newItem, hitems, _⟩ | ⟨_, hs⟩
    · simp only [step, hitems, happ]
    · simp only [step, hs, hi]
  | checkMatchesFor newItem e =>
    simp only [step, (checkMatchesFor_frame s newItem e).1, hi]
  | createClaim itemId e =>
    simp only [step, createClaim_items, hi]
  | markItemClaimed itemId =>
    simp only [step, markItemClaimed, List.getElem?_map, hi, Option.map_some']
    by_cases hid : it.id = itemId
    · rw [if_pos (beq_iff_eq.mpr hid), with_claimed_eq it hc]
    · simp [hid]
  | markNotificationSeen nid => simp only [step, markNotificationSeen, hi]
  | dismissNotification nid => simp only [step, dismissNotification, hi]

/-- A sequence of core operations keeps every claimed item where it is in the
registry. -/
theorem run_keeps_claimed (ops : List Op) (s : State) (i : Nat) (it : Item)
    (hi : s.items[i]? = some it) (hc : it.status = "claimed") :
    (run s ops).items[i]? = some it := by
  induction ops generalizing s with
  | nil => exact hi
  | cons op ops ih =>
    simp only [run, List.foldl_cons]
    exact ih (step s op) (step_keeps_claimed s op i it hi hc)

/-- An id drawn by `uid` is new whenever the clock it reads is above every id
of the registry. -/
theorem uid_ne_of_clock_above (items : List Item) (now : Nat) (rnd : Fin 999)
    (habove : ∀ it ∈ items, it.id < now) : ∀ it ∈ items, it.id ≠ uid now rnd := by
  intro it hit heq
  have hlt := habove it hit
  unfold uid at heq
  omega

/-- The method `toLowerCase` on letters outside ASCII, on a final sigma and on
U+0130. -/
theorem toLowerCase_eval :
    toLowerCase "CLÉ" = "clé" ∧ toLowerCase "ZOË@School.edu" = "zoë@school.edu" ∧
    toLowerCase "ÉCHARPE" = "écharpe" ∧ toLowerCase "ΟΔΟΣ ΣΟΣ" = "οδος σος" ∧
    toLowerCase "\u0130" = "i\u0307" ∧ toLowerCase "\u01c5" = "\u01c6" := by
  decide

/-- The method `trim` on the white space outside space, tab, CR and LF; the
control U+0085 is not white space for it. -/
theorem trim_eval :
    trim "\u00a0S001\u000b" = "S001" ∧ trim "A001\u000b" = "A001" ∧
    trim "\ufeff\u000c a b \u3000\u2028" = "a b" ∧ trim "\u0085x " = "\u0085x" ∧
    trim "\u00a0" = "" := by
  decide

/-- The handlers on fields padded with such white space or written with such
letters: the login of the admin under "A001" followed by U+000B, the
registration under "S001" between U+00A0 and U+000B, under a name that is one
U+00A0, and under the email of a stored user in capitals. -/
theorem handlers_eval :
    (loginUser sampleState "A001\u000b" "admin123").1 = LoginOutcome.loggedIn ∧
    (registerUser sampleState "Eve" "eve@school.edu" "\u00a0S001\u000b" "student" "pw").1 =
      RegisterOutcome.conflict ∧
    (registerUser sampleState "\u00a0" "admin@school.edu" "E001" "student" "pw").1 =
      RegisterOutcome.incomplete ∧
    (registerUser
      { sampleState with users := sampleState.users ++
          [{ name := "Zoë", email := "zoë@school.edu", id := "Z001", role := "student",
             password := "pw" }] }
      "Zoe" "ZOË@school.edu" "Z002" "student" "pw").1 = RegisterOutcome.conflict := by
  decide

/-- The function `checkMatchesFor` on names with letters outside ASCII: the
lost "ÉCHARPE" matches the found "écharpe" first, and its reporter S001 is the
one notified. -/
theorem checkMatchesFor_eval :
    (checkMatchesFor scarfState lostScarfUpper sampleEnv).notifications.map
      Notification.forUserId = ["S001"] := by
  decide

/-! ## The claims -/

/-- C1: in a registry with pairwise distinct item ids, when the first item in
insertion order that differs from `n` in id, has the opposite type, is not
claimed and whose lowercased name contains, or is contained in, the lowercased
name of `n` is `c`, and `c` has a non-empty `userId`, `checkMatchesFor` appends
exactly one notification: it is addressed to `c.userId`, unseen, with
`matches = [n.id]`; the earlier notifications, the registry, the users and the
session are unchanged. This holds whether or not `n` is already in the
registry. -/
theorem checkMatchesFor_notifies_first_candidate (s : State) (n : Item) (e : NoteEnv)
    (c : Item) (pre post : List Item)
    (hnodup : (s.items.map Item.id).Nodup)
    (hitems : s.items = pre ++ c :: post)
    (hc : c.id ≠ n.id ∧ c.type = oppositeType n.type ∧ c.status ≠ "claimed" ∧
      ((toLowerCase n.name).data <:+: (toLowerCase c.name).data ∨
        (toLowerCase c.name).data <:+: (toLowerCase n.name).data))
    (hfirst : ∀ x ∈ pre, ¬ (x.id ≠ n.id ∧ x.type = oppositeType n.type ∧
      x.status ≠ "claimed" ∧
      ((toLowerCase n.name).data <:+: (toLowerCase x.name).data ∨
        (toLowerCase x.name).data <:+: (toLowerCase n.name).data)))
    (huser : c.userId ≠ "") :
    ∃ note : Notification,
      (checkMatchesFor s n e).notifications = s.notifications ++ [note] ∧
      note.forUserId = c.userId ∧ note.seen = false ∧ note.matchedItemIds = [n.id] ∧
      (checkMatchesFor s n e).items = s.items ∧
      (checkMatchesFor s n e).users = s.users ∧
      (checkMatchesFor s n e).currentUser = s.currentUser := by
  have hcand : isCandidate n c = true := (isCandidate_iff n c).mpr hc
  have hpre : ∀ x ∈ pre, isCandidate n x = false := by
    intro x hx
    rw [← Bool.not_eq_true, isCandidate_iff]
    exact hfirst x hx
  have hids : matchIds s.items n = c.id :: (post.filter (isCandidate n)).map Item.id := by
    unfold matchIds
    rw [hitems, filter_isCandidate_first n c pre post hcand hpre, List.map_cons]
  have hmem : c ∈ s.items := by
    rw [hitems]
    simp
  have hfind := find?_id_eq_some s.items c hnodup hmem
  have htruthy : truthy c.userId = true := (truthy_iff _).mpr huser
  have hstep : (checkMatchesFor s n e).notifications = s.notifications ++
      [Notification.mk (uid e.uidNow e.rnd) c.userId e.createdNow false
        ("Possible match for your item \"" ++ c.name ++ "\"")
        ("A similar item was just reported: \"" ++ n.name ++ "\".") [n.id]] := by
    simp only [checkMatchesFor, hids, hfind, htruthy, if_true]
  exact ⟨_, hstep, rfl, rfl, rfl, (checkMatchesFor_frame s n e).1,
    (checkMatchesFor_frame s n e).2.1, (checkMatchesFor_frame s n e).2.2⟩

/-- C1, witness: a lost "Blue Backpack" is submitted while a non-claimed found
"backpack" is in the registry. -/
theorem checkMatchesFor_notifies_first_candidate_witness :
    ∃ note : Notification,
      (checkMatchesFor backpackState lostBlueBackpack sampleEnv).notifications =
        backpackState.notifications ++ [note] ∧
      note.forUserId = foundBackpack.userId ∧ note.seen = false ∧
      note.matchedItemIds = [lostBlueBackpack.id] ∧
      (checkMatchesFor backpackState lostBlueBackpack sampleEnv).items = backpackState.items ∧
      (checkMatchesFor backpackState lostBlueBackpack sampleEnv).users = backpackState.users ∧
      (checkMatchesFor backpackState lostBlueBackpack sampleEnv).currentUser =
        backpackState.currentUser :=
  checkMatchesFor_notifies_first_candidate backpackState lostBlueBackpack sampleEnv
    foundBackpack [] [lostBlueBackpack] (by decide) rfl (by decide) (by simp) (by decide)

/-- C2, as stated, fails: with the staff member T001 logged in, who is neither
the reporter S001 of the found backpack nor an admin, `markItemClaimed` turns
the status of that item from "active" into "claimed". -/
theorem markItemClaimed_unauthorised_counterexample :
    janeBrowsing.currentUser = some janeSmith ∧
    foundBackpack ∈ janeBrowsing.items ∧
    janeSmith.id ≠ foundBackpack.userId ∧ janeSmith.role ≠ "admin" ∧
    janeBrowsing.items.map Item.status = ["active"] ∧
    (markItemClaimed janeBrowsing foundBackpack.id).items.map Item.status = ["claimed"] := by
  decide

/-- C2, amended: for a current user who is neither the reporter of the items
with the given id nor an admin, `itemCardElement` renders no "Mark as Claimed"
button on these items, so the interface offers no call of `markItemClaimed` on
them; the handler itself makes no check: it sets the status of every item with
that id to "claimed", and leaves every other item, the users, the
notifications and the session unchanged. -/
theorem markItemClaimed_gated_by_button_only (s : State) (itemId : Nat) (u : User)
    (hu : s.currentUser = some u)
    (hreporter : ∀ it ∈ s.items, it.id = itemId → u.id ≠ it.userId)
    (hadmin : u.role ≠ "admin") :
    (∀ it ∈ s.items, it.id = itemId → markClaimedBtn s.currentUser it = false) ∧
    List.Forall₂
      (fun before after =>
        if before.id = itemId then after = { before with status := "claimed" }
        else after = before)
      s.items (markItemClaimed s itemId).items ∧
    (markItemClaimed s itemId).users = s.users ∧
    (markItemClaimed s itemId).notifications = s.notifications ∧
    (markItemClaimed s itemId).currentUser = s.currentUser := by
  refine ⟨?_, ?_, rfl, rfl, rfl⟩
  · intro it hit hid
    have h := hreporter it hit hid
    simp [markClaimedBtn, hu, h, hadmin]
  · simp only [markItemClaimed]
    generalize s.items = l
    induction l with
    | nil => exact List.Forall₂.nil
    | cons x xs ih =>
      rw [List.map_cons]
      refine List.Forall₂.cons ?_ ih
      by_cases hx : x.id = itemId <;> simp [hx]

/-- C2, amended, witness: the staff member T001 on the found backpack of
S001. -/
theorem markItemClaimed_gated_by_button_only_witness :
    (∀ it ∈ janeBrowsing.items, it.id = 1 → markClaimedBtn janeBrowsing.currentUser it = false) ∧
    List.Forall₂
      (fun before after =>
        if before.id = 1 then after = { before with status := "claimed" }
        else after = before)
      janeBrowsing.items (markItemClaimed janeBrowsing 1).items ∧
    (markItemClaimed janeBrowsing 1).users = janeBrowsing.users ∧
    (markItemClaimed janeBrowsing 1).notifications = janeBrowsing.notifications ∧
    (markItemClaimed janeBrowsing 1).currentUser = janeBrowsing.currentUser :=
  markItemClaimed_gated_by_button_only janeBrowsing 1 janeSmith rfl (by decide) (by decide)

/-- C3: when the stored emails are lowercase, `loginUser` logs a user in
exactly when some stored user has an email or an id equal to the trimmed
identifier ignoring case, and a password equal to the given one; the user it
logs in is the first stored user of that kind, and nothing but `currentUser`
changes; when it fails, the state, `currentUser` included, is unchanged. -/
theorem loginUser_iff_credentials (s : State) (identifier pw : String)
    (hlower : ∀ u ∈ s.users, toLowerCase u.email = u.email) :
    ((loginUser s identifier pw).1 = LoginOutcome.loggedIn ↔
      ∃ u ∈ s.users,
        (toLowerCase u.email = toLowerCase (trim identifier) ∨
          toLowerCase u.id = toLowerCase (trim identifier)) ∧ u.password = pw) ∧
    ((loginUser s identifier pw).1 = LoginOutcome.loggedIn →
      ∃ (u : User) (pre post : List User),
        s.users = pre ++ u :: post ∧
        ((toLowerCase u.email = toLowerCase (trim identifier) ∨
          toLowerCase u.id = toLowerCase (trim identifier)) ∧ u.password = pw) ∧
        (∀ x ∈ pre, ¬ ((toLowerCase x.email = toLowerCase (trim identifier) ∨
          toLowerCase x.id = toLowerCase (trim identifier)) ∧ x.password = pw)) ∧
        (loginUser s identifier pw).2 = { s with currentUser := some u }) ∧
    ((loginUser s identifier pw).1 ≠ LoginOutcome.loggedIn →
      (loginUser s identifier pw).1 = LoginOutcome.invalid ∧
        (loginUser s identifier pw).2 = s) := by
  cases hfind : s.users.find? (credentialsMatch (toLowerCase (trim identifier)) pw) with
  | none =>
    have hout : loginUser s identifier pw = (LoginOutcome.invalid, s) := by
      simp [loginUser, hfind]
    rw [hout]
    refine ⟨⟨fun h => (by cases h), ?_⟩, fun h => (by cases h), fun _ => ⟨rfl, rfl⟩⟩
    rintro ⟨u, hu, hcond⟩
    have hnone := List.find?_eq_none.mp hfind u hu
    exact absurd ((credentialsMatch_iff identifier pw u (hlower u hu)).mpr hcond) hnone
  | some user =>
    have hout : loginUser s identifier pw = (LoginOutcome.loggedIn, showAppFor s user) := by
      simp [loginUser, hfind]
    rw [hout]
    obtain ⟨huser, pre, post, hsplit, hpre⟩ := List.find?_eq_some.mp hfind
    have hmem : user ∈ s.users := by
      rw [hsplit]
      simp
    have hcond := (credentialsMatch_iff identifier pw user (hlower user hmem)).mp huser
    refine ⟨⟨fun _ => ⟨user, hmem, hcond⟩, fun _ => rfl⟩, fun _ => ?_, fun h => absurd rfl h⟩
    refine ⟨user, pre, post, hsplit, hcond, ?_, rfl⟩
    intro x hx hxcond
    have hxmem : x ∈ s.users := by
      rw [hsplit]
      exact List.mem_append_left _ hx
    have hxp := (credentialsMatch_iff identifier pw x (hlower x hxmem)).mpr hxcond
    have := hpre x hx
    simp [hxp] at this

/-- C3, witness: on the sample users, the identifier " a001 " with the password
of the admin logs the admin in, and nobody when the password is wrong. -/
theorem loginUser_iff_credentials_witness :
    (loginUser sampleState " a001 " "admin123").1 = LoginOutcome.loggedIn ∧
    (loginUser sampleState " a001 " "admin123").2.currentUser =
      some { name := "Admin", email := "admin@school.edu", id := "A001", role := "admin",
             password := "admin123" } ∧
    (loginUser sampleState " a001 " "Admin123").2 = sampleState :=
  ⟨(loginUser_iff_credentials sampleState " a001 " "admin123" (by decide)).1.mpr (by decide),
    by decide,
    ((loginUser_iff_credentials sampleState " a001 " "Admin123" (by decide)).2.2
      (by decide)).2⟩

/-- C4: in a registry whose items all have status "active" or "claimed", with
an empty search text, `renderBrowse` lists, most recent first: under the filter
"found" the found items that are not claimed; under "lost" the lost items that
are not claimed; under "claimed" the claimed items; without a filter every
item. So a claimed item is in neither the "lost" nor the "found" list, and is in
the unfiltered one. -/
theorem renderBrowse_status_filters (items : List Item)
    (hstatus : ∀ it ∈ items, it.status = "active" ∨ it.status = "claimed") :
    renderBrowse items "" "found" =
      sortByIdDesc (items.filter (fun it => it.type = "found" ∧ it.status ≠ "claimed")) ∧
    renderBrowse items "" "lost" =
      sortByIdDesc (items.filter (fun it => it.type = "lost" ∧ it.status ≠ "claimed")) ∧
    renderBrowse items "" "claimed" =
      sortByIdDesc (items.filter (fun it => it.status = "claimed")) ∧
    renderBrowse items "" "" = sortByIdDesc items ∧
    (∀ it, it ∈ renderBrowse items "" "found" ↔
      it ∈ items ∧ it.type = "found" ∧ it.status ≠ "claimed") ∧
    (∀ it, it ∈ renderBrowse items "" "lost" ↔
      it ∈ items ∧ it.type = "lost" ∧ it.status ≠ "claimed") ∧
    (∀ it, it ∈ renderBrowse items "" "claimed" ↔ it ∈ items ∧ it.status = "claimed") ∧
    (∀ it, it ∈ renderBrowse items "" "" ↔ it ∈ items) ∧
    (∀ it ∈ items, it.status = "claimed" →
      it ∉ renderBrowse items "" "lost" ∧ it ∉ renderBrowse items "" "found" ∧
        it ∈ renderBrowse items "" "") := by
  have hfound : renderBrowse items "" "found" =
      sortByIdDesc (items.filter (fun it => it.type = "found" ∧ it.status ≠ "claimed")) := by
    rw [renderBrowse_empty_query]
    congr 1
    apply List.filter_congr
    intro it hit
    rw [Bool.eq_iff_iff, decide_eq_true_iff]
    rcases hstatus it hit with h | h <;> simp [statusMatch, truthy, h]
  have hlost : renderBrowse items "" "lost" =
      sortByIdDesc (items.filter (fun it => it.type = "lost" ∧ it.status ≠ "claimed")) := by
    rw [renderBrowse_empty_query]
    congr 1
    apply List.filter_congr
    intro it hit
    rw [Bool.eq_iff_iff, decide_eq_true_iff]
    rcases hstatus it hit with h | h <;> simp [statusMatch, truthy, h]
  have hclaimed : renderBrowse items "" "claimed" =
      sortByIdDesc (items.filter (fun it => it.status = "claimed")) := by
    rw [renderBrowse_empty_query]
    congr 1
    apply List.filter_congr
    intro it hit
    rw [Bool.eq_iff_iff, decide_eq_true_iff]
    rcases hstatus it hit with h | h <;> simp [statusMatch, truthy, h]
  have hall : renderBrowse items "" "" = sortByIdDesc items := by
    rw [renderBrowse_empty_query]
    congr 1
    rw [List.filter_eq_self]
    intro it _
    simp [statusMatch, truthy]
  refine ⟨hfound, hlost, hclaimed, hall, ?_, ?_, ?_, ?_, ?_⟩
  · intro it
    rw [hfound, mem_sortByIdDesc]
    simp
  · intro it
    rw [hlost, mem_sortByIdDesc]
    simp
  · intro it
    rw [hclaimed, mem_sortByIdDesc]
    simp
  · intro it
    rw [hall, mem_sortByIdDesc]
  · intro it hit hc
    rw [hfound, hlost, hall, mem_sortByIdDesc, mem_sortByIdDesc, mem_sortByIdDesc]
    simp [hit, hc]

/-- C4, witness: in the registry of an active found item, an active lost item
and a claimed found item, the filter "found" shows the first alone and the
claimed item shows up only under "claimed" and without a filter. -/
theorem renderBrowse_status_filters_witness :
    (renderBrowse mixedRegistry "" "found" = [foundBackpack] ∧
      renderBrowse mixedRegistry "" "" = [claimedBackpack, lostBlueBackpack, foundBackpack]) ∧
    (claimedBackpack ∉ renderBrowse mixedRegistry "" "lost" ∧
      claimedBackpack ∉ renderBrowse mixedRegistry "" "found" ∧
      claimedBackpack ∈ renderBrowse mixedRegistry "" "") :=
  ⟨by decide,
    (renderBrowse_status_filters mixedRegistry (by decide)).2.2.2.2.2.2.2.2
      claimedBackpack (by decide) rfl⟩

/-- C5: when the stored emails are lowercase and some stored user has an email
equal, ignoring case, to the trimmed email of the form, or an id equal to the
id the form submits (the trimmed id field), `registerUser` does not register:
the state, and so the user store, is exactly what it was; and when all five
fields are non-empty the rejection is the alert "A user with this email or ID
already exists." -/
theorem registerUser_rejects_duplicate (s : State)
    (regName regEmail regId regRole regPassword : String)
    (hlower : ∀ u ∈ s.users, toLowerCase u.email = u.email)
    (hdup : (∃ u ∈ s.users, toLowerCase u.email = toLowerCase (trim regEmail)) ∨
      (∃ u ∈ s.users, u.id = trim regId)) :
    (registerUser s regName regEmail regId regRole regPassword).1 ≠
      RegisterOutcome.registered ∧
    (registerUser s regName regEmail regId regRole regPassword).2 = s ∧
    (trim regName ≠ "" ∧ toLowerCase (trim regEmail) ≠ "" ∧ trim regId ≠ "" ∧
      regRole ≠ "" ∧ regPassword ≠ "" →
        (registerUser s regName regEmail regId regRole regPassword).1 =
          RegisterOutcome.conflict) := by
  have hsome : (s.users.find?
      (fun u => u.email == toLowerCase (trim regEmail) || u.id == trim regId)).isSome = true := by
    rw [List.find?_isSome]
    rcases hdup with ⟨u, hu, he⟩ | ⟨u, hu, hi⟩
    · refine ⟨u, hu, ?_⟩
      rw [hlower u hu] at he
      simp [he]
    · exact ⟨u, hu, by simp [hi]⟩
  unfold registerUser
  simp only [hsome, if_true]
  split
  · exact ⟨fun h => (by cases h), rfl, fun hne => (by simp_all [truthy])⟩
  · exact ⟨fun h => (by cases h), rfl, fun _ => rfl⟩

/-- C5, witness: on the sample users, a registration under the email of the
admin in another case, and one under the id "S001", are both turned down. -/
theorem registerUser_rejects_duplicate_witness :
    (registerUser sampleState "Eve" " Admin@School.edu " "E001" "student" "pw").1 =
      RegisterOutcome.conflict ∧
    (registerUser sampleState "Eve" " Admin@School.edu " "E001" "student" "pw").2 =
      sampleState ∧
    (registerUser sampleState "Eve" "eve@school.edu" " S001" "student" "pw").2 =
      sampleState :=
  ⟨(registerUser_rejects_duplicate sampleState "Eve" " Admin@School.edu " "E001" "student" "pw"
      (by decide) (Or.inl (by decide))).2.2 (by decide),
    (registerUser_rejects_duplicate sampleState "Eve" " Admin@School.edu " "E001" "student" "pw"
      (by decide) (Or.inl (by decide))).2.1,
    (registerUser_rejects_duplicate sampleState "Eve" "eve@school.edu" " S001" "student" "pw"
      (by decide) (Or.inr (by decide))).2.1⟩

/-- C6, the defect: the sample users satisfy the uniqueness invariant (no two
emails and no two ids equal ignoring case), yet `registerUser` then accepts the
id "a001" next to the stored "A001", because it compares ids by `===` without
the lowercasing that `loginUser` applies to them; afterwards two users have
ids equal ignoring case. -/
theorem registerUser_accepts_case_variant_id :
    ((sampleState.users.map (fun u => toLowerCase u.email)).Nodup ∧
      (sampleState.users.map (fun u => toLowerCase u.id)).Nodup) ∧
    (registerUser sampleState "Eve" "eve@school.edu" "a001" "student" "pw").1 =
      RegisterOutcome.registered ∧
    ((registerUser sampleState "Eve" "eve@school.edu" "a001" "student" "pw").2.users.map
      User.id) = ["A001", "S001", "T001", "a001"] ∧
    ¬ ((registerUser sampleState "Eve" "eve@school.edu" "a001" "student" "pw").2.users.map
      (fun u => toLowerCase u.id)).Nodup := by
  decide

/-- C7: with a user logged in and `item` the first item of the registry with
the given id, `createClaim` appends exactly one notification, addressed to
`item.userId`, unseen, with `matches = [item.id]`; the earlier notifications
are unchanged, and so are the registry (hence every status, whether the item is
active or claimed), the users and the session. -/
theorem createClaim_appends_one_notification (s : State) (itemId : Nat) (e : NoteEnv)
    (u : User) (item : Item) (pre post : List Item)
    (hu : s.currentUser = some u)
    (hitems : s.items = pre ++ item :: post)
    (hid : item.id = itemId)
    (hfirst : ∀ x ∈ pre, x.id ≠ itemId) :
    ∃ note : Notification,
      (createClaim s itemId e).2.notifications = s.notifications ++ [note] ∧
      note.forUserId = item.userId ∧ note.seen = false ∧
      note.matchedItemIds = [item.id] ∧
      (createClaim s itemId e).2.items = s.items ∧
      (createClaim s itemId e).2.users = s.users ∧
      (createClaim s itemId e).2.currentUser = s.currentUser ∧
      (createClaim s itemId e).1 = ClaimOutcome.claimSent := by
  have hfind : s.items.find? (fun x => x.id == itemId) = some item := by
    rw [hitems]
    exact find?_id_first itemId item pre post hid hfirst
  have hstep : createClaim s itemId e = (ClaimOutcome.claimSent,
      { s with notifications := s.notifications ++
        [Notification.mk (uid e.uidNow e.rnd) item.userId e.createdNow false
          ("Claim attempt for \"" ++ item.name ++ "\"")
          (u.name ++ " (ID: " ++ u.id ++ ") wants to claim this item.") [item.id]] }) := by
    simp only [createClaim, hfind, hu]
  rw [hstep]
  exact ⟨_, rfl, rfl, rfl, rfl, rfl, rfl, rfl, rfl⟩

/-- C7, witness: the staff member T001 claims the backpack that is already
claimed; its reporter S001 is notified and the registry is what it was. -/
theorem createClaim_appends_one_notification_witness :
    ∃ note : Notification,
      (createClaim janeAfterClaimed 3 sampleEnv).2.notifications =
        janeAfterClaimed.notifications ++ [note] ∧
      note.forUserId = claimedBackpack.userId ∧ note.seen = false ∧
      note.matchedItemIds = [claimedBackpack.id] ∧
      (createClaim janeAfterClaimed 3 sampleEnv).2.items = janeAfterClaimed.items ∧
      (createClaim janeAfterClaimed 3 sampleEnv).2.users = janeAfterClaimed.users ∧
      (createClaim janeAfterClaimed 3 sampleEnv).2.currentUser = janeAfterClaimed.currentUser ∧
      (createClaim janeAfterClaimed 3 sampleEnv).1 = ClaimOutcome.claimSent :=
  createClaim_appends_one_notification janeAfterClaimed 3 sampleEnv janeSmith claimedBackpack
    [lostBlueBackpack] [] rfl rfl rfl (by decide)

/-- C8: when no item of the registry that differs from `n` in id, has the
opposite type and is not claimed has a lowercased name that contains, or is
contained in, the lowercased name of `n`, `checkMatchesFor` leaves the
notification list, and the whole state, unchanged. -/
theorem checkMatchesFor_no_match_no_notification (s : State) (n : Item) (e : NoteEnv)
    (hnone : ∀ it ∈ s.items, it.id ≠ n.id → it.type = oppositeType n.type →
      it.status ≠ "claimed" →
      ¬ ((toLowerCase n.name).data <:+: (toLowerCase it.name).data ∨
        (toLowerCase it.name).data <:+: (toLowerCase n.name).data)) :
    (checkMatchesFor s n e).notifications = s.notifications ∧ checkMatchesFor s n e = s := by
  have h : checkMatchesFor s n e = s := by
    apply checkMatchesFor_of_no_candidate
    intro it hit
    rw [← Bool.not_eq_true, isCandidate_iff]
    rintro ⟨h1, h2, h3, h4⟩
    exact hnone it hit h1 h2 h3 h4
  exact ⟨by rw [h], h⟩

/-- C8, witness: a lost "Umbrella" is appended to the registry of the two
backpacks; no name contains the other, and no notification is produced. -/
theorem checkMatchesFor_no_match_no_notification_witness :
    (checkMatchesFor umbrellaState lostUmbrella sampleEnv).notifications =
        umbrellaState.notifications ∧
      checkMatchesFor umbrellaState lostUmbrella sampleEnv = umbrellaState :=
  checkMatchesFor_no_match_no_notification umbrellaState lostUmbrella sampleEnv (by decide)

/-- C9: item status is one-way. An item created by `submitLost` or
`submitFound` has status "active" (and a rejected submission changes nothing);
and in every state, hence in every reachable one, an item whose status is
"claimed" is, after any core operation and after any sequence of them, still at
the same place in the registry, unchanged, so still "claimed": no operation sets
a status back to "active". -/
theorem status_is_one_way :
    (∀ (s : State) (f : ReportForm) (r : ReportEnv) (e : NoteEnv),
      ((submitLost s f r e).1 = SubmitOutcome.reported →
        ∃ newItem : Item, (submitLost s f r e).2.items = s.items ++ [newItem] ∧
          newItem.status = "active") ∧
      ((submitLost s f r e).1 ≠ SubmitOutcome.reported → (submitLost s f r e).2 = s) ∧
      ((submitFound s f r e).1 = SubmitOutcome.reported →
        ∃ newItem : Item, (submitFound s f r e).2.items = s.items ++ [newItem] ∧
          newItem.status = "active") ∧
      ((submitFound s f r e).1 ≠ SubmitOutcome.reported → (submitFound s f r e).2 = s)) ∧
    (∀ (s : State) (op : Op) (i : Nat) (it : Item),
      s.items[i]? = some it → it.status = "claimed" →
        (step s op).items[i]? = some it ∧ it ∈ (step s op).items) ∧
    (∀ (s : State) (ops : List Op) (i : Nat) (it : Item),
      s.items[i]? = some it → it.status = "claimed" →
        (run s ops).items[i]? = some it ∧ it ∈ (run s ops).items) := by
  refine ⟨fun s f r e => ⟨?_, ?_, ?_, ?_⟩, ?_, ?_⟩
  · intro h
    rcases submitLost_items s f r e with ⟨_, newItem, hitems, hactive, _⟩ | ⟨hne, _⟩
    · exact ⟨newItem, hitems, hactive⟩
    · exact absurd h hne
  · intro h
    rcases submitLost_items s f r e with ⟨hrep, _⟩ | ⟨_, hs⟩
    · exact absurd hrep h
    · exact hs
  · intro h
    rcases submitFound_items s f r e with ⟨_, newItem, hitems, hactive, _⟩ | ⟨hne, _⟩
    · exact ⟨newItem, hitems, hactive⟩
    · exact absurd h hne
  · intro h
    rcases submitFound_items s f r e with ⟨hrep, _⟩ | ⟨_, hs⟩
    · exact absurd hrep h
    · exact hs
  · intro s op i it hi hc
    have h := step_keeps_claimed s op i it hi hc
    exact ⟨h, List.getElem?_mem h⟩
  · intro s ops i it hi hc
    have h := run_keeps_claimed ops s i it hi hc
    exact ⟨h, List.getElem?_mem h⟩

/-- C9, witness: with T001 logged in and the claimed backpack second in the
registry, a report of found keys appends an active item, and after the
operations "mark item 3 claimed, claim item 3, report found keys, mark item 2
claimed" the claimed backpack is still second and still claimed. -/
theorem status_is_one_way_witness :
    (∃ newItem : Item,
      (submitFound janeAfterClaimed keysForm sampleReportEnv sampleEnv).2.items =
        janeAfterClaimed.items ++ [newItem] ∧ newItem.status = "active") ∧
    ((run janeAfterClaimed
        [Op.markItemClaimed 3, Op.createClaim 3 sampleEnv,
          Op.submitFound keysForm sampleReportEnv sampleEnv, Op.markItemClaimed 2]).items[1]? =
        some claimedBackpack ∧
      claimedBackpack ∈ (run janeAfterClaimed
        [Op.markItemClaimed 3, Op.createClaim 3 sampleEnv,
          Op.submitFound keysForm sampleReportEnv sampleEnv, Op.markItemClaimed 2]).items) :=
  ⟨(status_is_one_way.1 janeAfterClaimed keysForm sampleReportEnv sampleEnv).2.2.1 (by decide),
    status_is_one_way.2.2 janeAfterClaimed _ 1 claimedBackpack (by decide) (by decide)⟩

/-- C10: `dismissNotification` is idempotent; when no notification has the
given id the state is unchanged; in general the notifications it keeps are a
sublist of the old list (same content, same relative order), none of them has
the given id, and the number removed is the number of notifications with that
id, so exactly these are removed; nothing else in the state changes. -/
theorem dismissNotification_removes_exactly (s : State) (nid : Nat) :
    dismissNotification (dismissNotification s nid) nid = dismissNotification s nid ∧
    ((∀ n ∈ s.notifications, n.id ≠ nid) → dismissNotification s nid = s) ∧
    (dismissNotification s nid).notifications.Sublist s.notifications ∧
    (∀ n, n ∈ (dismissNotification s nid).notifications ↔ n ∈ s.notifications ∧ n.id ≠ nid) ∧
    (dismissNotification s nid).notifications.length +
      s.notifications.countP (fun n => n.id = nid) = s.notifications.length ∧
    (dismissNotification s nid).users = s.users ∧
    (dismissNotification s nid).items = s.items ∧
    (dismissNotification s nid).currentUser = s.currentUser := by
  refine ⟨?_, ?_, ?_, ?_, ?_, rfl, rfl, rfl⟩
  · simp [dismissNotification]
  · intro h
    have hfilter : s.notifications.filter (fun n => n.id != nid) = s.notifications := by
      rw [List.filter_eq_self]
      intro n hn
      simpa using h n hn
    simp [dismissNotification, hfilter]
  · exact List.filter_sublist _
  · intro n
    simp [dismissNotification]
  · simp only [dismissNotification]
    generalize s.notifications = l
    induction l with
    | nil => rfl
    | cons x xs ih =>
      by_cases hx : x.id = nid
      · simp [hx] at ih ⊢
        omega
      · simp [hx] at ih ⊢
        omega

/-- C10, witness: dismissing the unknown id 9 changes nothing, and dismissing
the id 5 removes the two notifications that carry it and keeps the third. -/
theorem dismissNotification_removes_exactly_witness :
    dismissNotification notifiedState 9 = notifiedState ∧
    (dismissNotification notifiedState 5).notifications = [sampleNote 6] ∧
    dismissNotification (dismissNotification notifiedState 5) 5 =
      dismissNotification notifiedState 5 :=
  ⟨(dismissNotification_removes_exactly notifiedState 9).2.1 (by decide), by decide,
    (dismissNotification_removes_exactly notifiedState 5).1⟩

/-- C11, as stated, fails: the registry holds no item of id 99, yet the call
`createClaim(99)` hands its caller the same `undefined` as the successful call
`createClaim(1)`, throws nothing, and shows no alert. -/
theorem createClaim_missing_item_counterexample :
    (∀ it ∈ janeBrowsing.items, it.id ≠ 99) ∧
    createClaimCompletion janeBrowsing 99 = Completion.returnsUndefined ∧
    (createClaim janeBrowsing 99 sampleEnv).1 = ClaimOutcome.returnedEarly ∧
    (createClaim janeBrowsing 1 sampleEnv).1 = ClaimOutcome.claimSent ∧
    createClaimCompletion janeBrowsing 99 = createClaimCompletion janeBrowsing 1 := by
  decide

/-- C11, amended: when no item of the registry has the given id, or when no
user is logged in, `createClaim` returns by its guard, silently: no alert, no
exception, the value `undefined`; it creates no notification, and the
notification list, the registry and the rest of the state are exactly as
before. -/
theorem createClaim_silent_noop (s : State) (itemId : Nat) (e : NoteEnv)
    (h : (∀ it ∈ s.items, it.id ≠ itemId) ∨ s.currentUser = none) :
    (createClaim s itemId e).1 = ClaimOutcome.returnedEarly ∧
    createClaimCompletion s itemId = Completion.returnsUndefined ∧
    (createClaim s itemId e).2.notifications = s.notifications ∧
    (createClaim s itemId e).2.items = s.items ∧
    (createClaim s itemId e).2 = s := by
  have hcompletion : createClaimCompletion s itemId = Completion.returnsUndefined := by
    unfold createClaimCompletion
    split <;> rfl
  have hstep : createClaim s itemId e = (ClaimOutcome.returnedEarly, s) := by
    rcases h with hnone | hout
    · have hfind : s.items.find? (fun x => x.id == itemId) = none := by
        rw [List.find?_eq_none]
        intro x hx
        simpa using hnone x hx
      simp [createClaim, hfind]
    · unfold createClaim
      rw [hout]
      split
      · rename_i heq
        cases heq
      · rfl
  rw [hstep]
  exact ⟨rfl, hcompletion, rfl, rfl, rfl⟩

/-- C11, amended, witness: the staff member T001 claims the unknown id 99, and
the id 1 is claimed while nobody is logged in; both calls change nothing. -/
theorem createClaim_silent_noop_witness :
    ((createClaim janeBrowsing 99 sampleEnv).1 = ClaimOutcome.returnedEarly ∧
      createClaimCompletion janeBrowsing 99 = Completion.returnsUndefined ∧
      (createClaim janeBrowsing 99 sampleEnv).2.notifications = janeBrowsing.notifications ∧
      (createClaim janeBrowsing 99 sampleEnv).2.items = janeBrowsing.items ∧
      (createClaim janeBrowsing 99 sampleEnv).2 = janeBrowsing) ∧
    (createClaim loggedOutState 1 sampleEnv).2 = loggedOutState :=
  ⟨createClaim_silent_noop janeBrowsing 99 sampleEnv (Or.inl (by decide)),
    (createClaim_silent_noop loggedOutState 1 sampleEnv (Or.inr rfl)).2.2.2.2⟩

/-- C12, the defect: with T001 logged in and an empty registry, found keys are
reported at clock 2000 with the draw 17, then a lost wallet one millisecond
later with the draw 16. Both submissions succeed, the clock does not decrease,
and `uid` gives 2000 + 17 = 2001 + 16 = 2017 twice: the item appended second
has the id of the item already in the registry, and the ids are no longer
pairwise distinct. -/
theorem submit_repeats_existing_id :
    (submitFound janeEmptyRegistry keysForm sampleReportEnv sampleEnv).1 =
      SubmitOutcome.reported ∧
    (submitFound janeEmptyRegistry keysForm sampleReportEnv sampleEnv).2.items.map Item.id =
      [2017] ∧
    sampleReportEnv.uidNow ≤ laterReportEnv.uidNow ∧
    (submitLost (submitFound janeEmptyRegistry keysForm sampleReportEnv sampleEnv).2
      walletForm laterReportEnv sampleEnv).1 = SubmitOutcome.reported ∧
    (submitLost (submitFound janeEmptyRegistry keysForm sampleReportEnv sampleEnv).2
      walletForm laterReportEnv sampleEnv).2.items.map Item.id = [2017, 2017] ∧
    ¬ ((run janeEmptyRegistry
        [Op.submitFound keysForm sampleReportEnv sampleEnv,
          Op.submitLost walletForm laterReportEnv sampleEnv]).items.map Item.id).Nodup := by
  decide

end LostFound
